import Mathlib

/-!
Verification of the database-inspector schema-extraction core.

This file gives a shallow embedding, in Lean 4, of the schema-extraction
core of the repository: the shared type-mapping table and type-name
normalization (src/database_inspector/db/db_base.py together with
src/database_inspector/infrastructure/models.py), the connection
lifecycle (DbBase.close, DbBase.exit, the connection property), the
schema-extraction orchestrator (DbBase.extract_schema), and the four
per-engine adapters (SQLite, PostgreSQL, MySQL, SQL Server).

Modelling conventions:
- Python values of type `type | None` (the datatype of a column) become
  `Option PyType` where `PyType` enumerates the Python types appearing in
  `python_type_map`.
- The native connection handle of an adapter becomes a small record whose
  one field captures the only observable the source reads from it (the
  `closed` flag of psycopg / pyodbc connections, `is_connected()` for
  mysql-connector, and whether `cursor()` raises `ProgrammingError` for
  sqlite3). The `_connection` attribute is `Option` of that record.
- The database that a connected adapter would query is modelled as the
  logical catalog content: an association list from base-table name to the
  list of raw catalog rows that the engine-specific column query returns
  for that table.
- Fallible operations return `Except DbError α`, paired with the list of
  catalog queries the operation issued, so that claims about which queries
  run (and in what order) are statable.
- Python string functions are modelled at ASCII fidelity (every string the
  core manipulates is ASCII); `re.sub` calls are modelled by dedicated
  recursive functions whose semantics on the relevant inputs match the
  regex engine, see the comments on `stripParensFuel` and
  `removeQualifiersFuel`.
-/

/-- The engine identity enum of infrastructure/enums.py (`DatabaseType`). -/
inductive DatabaseType where
  | SQLITE
  | POSTGRES
  | MYSQL
  | MSSQL
deriving DecidableEq, Repr

/-- The connection status enum of infrastructure/enums.py (`ConnectionStatus`). -/
inductive ConnectionStatus where
  | CONNECTED
  | DISCONNECTED
  | UNKNOWN
deriving DecidableEq, Repr

/-- The Python types that occur as values of `python_type_map` in
infrastructure/models.py: str, int, float, bool, date, datetime, bytes. -/
inductive PyType where
  | str
  | int
  | float
  | bool
  | date
  | datetime
  | bytes
deriving DecidableEq, Repr

/-- The error taxonomy of infrastructure/errors.py.  Both classes carry the
message and the originating `DatabaseType`; we keep the class names as
constructor names. -/
inductive DbError where
  | DatabaseConnectionError (message : String) (db_type : DatabaseType)
  | DatabaseTableNotFoundError (message : String) (db_type : DatabaseType)
deriving DecidableEq, Repr

/-- `DbColumn` of infrastructure/models.py: an immutable record of column
name, mapped Python type (or `None`), and nullability. -/
structure DbColumn where
  name : String
  datatype : Option PyType
  is_nullable : Bool
deriving DecidableEq, Repr

/-- `python_type_map` of infrastructure/models.py: each Python type with the
set of database type spellings registered for it, in source order. -/
def python_type_map : List (PyType × List String) :=
  [ (.str, ["TEXT", "CHAR", "VARCHAR", "NVARCHAR", "CLOB", "CHARACTER VARYING"]),
    (.int, ["INT", "INTEGER", "SMALLINT", "BIGINT", "SERIAL"]),
    (.float, ["REAL", "DOUBLE PRECISION", "NUMERIC", "DECIMAL"]),
    (.bool, ["BOOLEAN"]),
    (.date, ["DATE"]),
    (.datetime, ["DATETIME", "DATETIME2", "TIMESTAMP WITHOUT TIME ZONE"]),
    (.bytes, ["BLOB", "BYTEA", "VARBINARY"]) ]

/-- `DbBase._db_type_to_python_type` of db_base.py: the reverse lookup table,
built by the dict comprehension
`{db_type: python_type for python_type, db_types in python_type_map.items()
for db_type in db_types}`.  All spellings are distinct, so the dict equals
this association list. -/
def db_type_to_python_type : List (String × PyType) :=
  python_type_map.flatMap (fun e => e.2.map (fun n => (n, e.1)))

/-- The ASCII whitespace characters matched by the regex class `\s` (and
stripped by `str.strip()`): space, tab, newline, carriage return, vertical
tab, form feed. -/
def isPySpace (c : Char) : Bool :=
  (c == ' ') || (c == '\t') || (c == '\n') || (c == '\r') ||
  (c == Char.ofNat 11) || (c == Char.ofNat 12)

/-- Index of the last `)` that lies before the first newline of the list
(`.` in a Python regex does not match a newline; the greedy `\(.*\)` match
starting at a `(` therefore extends exactly to this `)`). -/
def lastIdxRParen : List Char → Option Nat
  | [] => none
  | c :: cs =>
    if c = '\n' then none
    else
      match lastIdxRParen cs with
      | some k => some (k + 1)
      | none => if c = ')' then some 0 else none

/-- Fuel-indexed model of `re.sub(r"\(.*\)", "", s)` from
`DbBase._get_python_type`: scan left to right; at each `(` that has a `)`
later on the same line, greedily delete through the last such `)` and resume
after it; any other character is kept.  Structural recursion in the fuel so
the kernel can evaluate it; one unit of fuel is spent per character
consumed, so `cs.length` fuel always suffices. -/
def stripParensFuel : Nat → List Char → List Char
  | _, [] => []
  | 0, cs => cs
  | fuel + 1, c :: cs =>
    if c = '(' then
      match lastIdxRParen cs with
      | some k => stripParensFuel fuel (cs.drop (k + 1))
      | none => c :: stripParensFuel fuel cs
    else c :: stripParensFuel fuel cs

/-- `re.sub(r"\(.*\)", "", s)` with sufficient fuel. -/
def stripParens (cs : List Char) : List Char :=
  stripParensFuel cs.length cs

/-- `str.strip()`: drop leading and trailing whitespace. -/
def pyStrip (cs : List Char) : List Char :=
  ((cs.dropWhile isPySpace).reverse.dropWhile isPySpace).reverse

/-- Fuel-indexed model of
`re.sub(r"\sUNSIGNED|\sZEROFILL", "", s, flags=re.IGNORECASE)` from
`DbBase._get_python_type`: scan left to right; a whitespace character
followed case-insensitively by `UNSIGNED` (tried first, as in the regex
alternation) or `ZEROFILL` deletes those nine characters; anything else is
kept. -/
def removeQualifiersFuel : Nat → List Char → List Char
  | _, [] => []
  | 0, cs => cs
  | fuel + 1, c :: cs =>
    if isPySpace c && ((cs.take 8).map Char.toUpper == "UNSIGNED".data) then
      removeQualifiersFuel fuel (cs.drop 8)
    else if isPySpace c && ((cs.take 8).map Char.toUpper == "ZEROFILL".data) then
      removeQualifiersFuel fuel (cs.drop 8)
    else
      c :: removeQualifiersFuel fuel cs

/-- `re.sub(r"\sUNSIGNED|\sZEROFILL", "", s, flags=re.IGNORECASE)` with
sufficient fuel. -/
def removeQualifiers (cs : List Char) : List Char :=
  removeQualifiersFuel cs.length cs

/-- The normalized dictionary key computed by `DbBase._get_python_type`
(db_base.py lines 170-176): strip any parenthesized suffix, `strip()`
whitespace, remove `UNSIGNED`/`ZEROFILL` qualifiers case-insensitively,
then uppercase. -/
def normalized_key (db_type : String) : String :=
  ⟨(removeQualifiers (pyStrip (stripParens db_type.data))).map Char.toUpper⟩

/-- `DbBase._get_python_type`: normalize the native spelling and look it up
in the reverse table, returning `None` on a miss
(`.get(normalized_db_type.upper(), None)`). -/
def _get_python_type (db_type : String) : Option PyType :=
  db_type_to_python_type.lookup (normalized_key db_type)

example : _get_python_type "  int unsigned " = some .int := by decide
example : _get_python_type "TIMESTAMP WITHOUT TIME ZONE" = some .datetime := by decide

/-! ## Connection lifecycle (db_base.py) and per-engine adapters

Each adapter owns `_connection : Option <handle>`.  The handle record holds
the one liveness observable the source reads from the native connection
object.  Catalog-querying operations take the modelled catalog content as
an explicit argument and return the `Except` result paired with the list
of catalog queries issued, in order. -/

/-- psycopg connection handle: the source reads only `connection.closed`
(postgres_db_connection.py line 81). -/
structure PgHandle where
  closed : Bool
deriving DecidableEq, Repr

/-- pyodbc connection handle: the source reads only `connection.closed`
(mssql_db_connection.py line 102). -/
structure MsHandle where
  closed : Bool
deriving DecidableEq, Repr

/-- mysql-connector handle: the source reads only `is_connected()`
(mysql_db_connection.py line 84). -/
structure MySqlHandle where
  is_connected : Bool
deriving DecidableEq, Repr

/-- sqlite3 connection handle: `closed` is true exactly when `cursor()`
raises `ProgrammingError` (sqlite_db_connection.py lines 78-84), which is
how the source detects a closed SQLite connection. -/
structure SqliteHandle where
  closed : Bool
deriving DecidableEq, Repr

/-- `DbBase.connection` property (db_base.py lines 92-102): returns the
`_connection` attribute, which is `None` once the connection is closed. -/
def connection_property {H : Type} (conn : Option H) : Option H :=
  conn

/-- `DbBase.close` (db_base.py lines 104-112): only when `_connection` is
not `None` AND the current status is `CONNECTED` does it close the native
handle and set `_connection = None`; otherwise it leaves the state
unchanged.  Parameterized by the engine-specific `get_connection_status`. -/
def DbBase_close {H : Type} (get_connection_status : Option H → ConnectionStatus)
    (conn : Option H) : Option H :=
  if conn.isSome ∧ get_connection_status conn = .CONNECTED then none else conn

/-- `DbBase.__exit__` (db_base.py lines 73-90): invokes `self.close()`
unconditionally, whatever exception (if any) is in flight. -/
def DbBase_exit {H : Type} (get_connection_status : Option H → ConnectionStatus)
    (_exc : Option String) (conn : Option H) : Option H :=
  DbBase_close get_connection_status conn

/-- `SqliteDbConnection.get_connection_status`: `CONNECTED` when the handle
exists and `cursor()` does not raise, else `DISCONNECTED`. -/
def sqlite_get_connection_status (conn : Option SqliteHandle) : ConnectionStatus :=
  match conn with
  | some h => if h.closed then .DISCONNECTED else .CONNECTED
  | none => .DISCONNECTED

/-- `PostgresDbConnection.get_connection_status` (lines 73-83):
`CONNECTED` iff the handle exists and `not connection.closed`. -/
def postgres_get_connection_status (conn : Option PgHandle) : ConnectionStatus :=
  match conn with
  | some h => if !h.closed then .CONNECTED else .DISCONNECTED
  | none => .DISCONNECTED

/-- `MySqlDbConnection.get_connection_status` (lines 76-86):
`CONNECTED` iff the handle exists and `is_connected()`. -/
def mysql_get_connection_status (conn : Option MySqlHandle) : ConnectionStatus :=
  match conn with
  | some h => if h.is_connected then .CONNECTED else .DISCONNECTED
  | none => .DISCONNECTED

/-- `MSSqlDbConnection.get_connection_status` (lines 94-104):
`CONNECTED` iff the handle exists and `not connection.closed`. -/
def mssql_get_connection_status (conn : Option MsHandle) : ConnectionStatus :=
  match conn with
  | some h => if !h.closed then .CONNECTED else .DISCONNECTED
  | none => .DISCONNECTED

def sqlite_close := DbBase_close sqlite_get_connection_status
def sqlite_exit := DbBase_exit sqlite_get_connection_status
def postgres_close := DbBase_close postgres_get_connection_status
def postgres_exit := DbBase_exit postgres_get_connection_status
def mysql_close := DbBase_close mysql_get_connection_status
def mysql_exit := DbBase_exit mysql_get_connection_status
def mssql_close := DbBase_close mssql_get_connection_status
def mssql_exit := DbBase_exit mssql_get_connection_status

/-- Python `str.lower()` at ASCII fidelity, as used on the catalog
nullability strings. -/
def pyLowerStr (s : String) : String :=
  ⟨s.data.map Char.toLower⟩

/-- `pre.isPrefixOf s` on the character lists: models
`str.startswith(pre)`, used to state message-prefix properties. -/
def startsWithStr (s pre : String) : Bool :=
  pre.data.isPrefixOf s.data

/-- A row of `PRAGMA table_info(...)` as read by
`SqliteDbConnection.get_columns` (keys `name`, `type`, `notnull`). -/
structure SqliteRow where
  name : String
  type : String
  notnull : Int
deriving DecidableEq, Repr

/-- A row of the PostgreSQL `information_schema.columns` query as read by
`PostgresDbConnection.get_columns`
(keys `column_name`, `data_type`, `is_nullable`). -/
structure PgRow where
  column_name : String
  data_type : String
  is_nullable : String
deriving DecidableEq, Repr

/-- A row of `DESCRIBE <table>` as read by `MySqlDbConnection.get_columns`
(keys `Field`, `Type`, `Null`; lowercased field names because `Type` is not
a legal Lean field name). -/
structure MySqlRow where
  field : String
  type : String
  null : String
deriving DecidableEq, Repr

/-- A row of the SQL Server `information_schema.columns` query as read by
`MSSqlDbConnection.get_columns`
(keys `column_name`, `data_type`, `is_nullable`). -/
structure MsRow where
  column_name : String
  data_type : String
  is_nullable : String
deriving DecidableEq, Repr

/-- The logical SQLite catalog: the base tables (the `sqlite_master` rows
with `type='table'` whose names do not start with the internal prefix),
each with its `table_info` rows. -/
structure SqliteDb where
  tables : List (String × List SqliteRow)
deriving Repr

/-- The logical PostgreSQL catalog: the current schema name and the base
tables visible in it, each with its `information_schema.columns` rows. -/
structure PgDb where
  current_schema : String
  tables : List (String × List PgRow)
deriving Repr

/-- The logical MySQL catalog: the base tables of the connected database,
each with its `DESCRIBE` rows. -/
structure MySqlDb where
  tables : List (String × List MySqlRow)
deriving Repr

/-- The logical SQL Server catalog: the base tables of the connected
database, each with its `information_schema.columns` rows. -/
structure MsDb where
  tables : List (String × List MsRow)
deriving Repr

/-- The catalog queries `SqliteDbConnection` can issue, in the order the
source builds them. -/
inductive SqliteQuery where
  | master_tables
  | table_exists (table_name : String)
  | table_info (table_name : String)
deriving DecidableEq, Repr

/-- The catalog queries `PostgresDbConnection` can issue. -/
inductive PgQuery where
  | information_schema_tables
  | current_schema
  | to_regclass (schema table_name : String)
  | information_schema_columns (schema table_name : String)
deriving DecidableEq, Repr

/-- The catalog queries `MySqlDbConnection` can issue. -/
inductive MySqlQuery where
  | show_tables
  | describe (table_name : String)
deriving DecidableEq, Repr

/-- The catalog queries `MSSqlDbConnection` can issue. -/
inductive MsQuery where
  | information_schema_tables (database : String)
  | information_schema_columns (table_name : String)
deriving DecidableEq, Repr

/-- The `DbColumn` built for one pragma row in the loop of
`SqliteDbConnection.get_columns` (lines 156-163): `is_nullable` is the
inverted not-null integer flag (`c["notnull"] == 0`). -/
def sqlite_row_to_column (c : SqliteRow) : DbColumn :=
  { name := c.name
    datatype := _get_python_type c.type
    is_nullable := c.notnull == 0 }

/-- The `DbColumn` built for one catalog row in the loop of
`PostgresDbConnection.get_columns` (lines 164-171):
`is_nullable` is `c["is_nullable"].lower() == "yes"`. -/
def postgres_row_to_column (c : PgRow) : DbColumn :=
  { name := c.column_name
    datatype := _get_python_type c.data_type
    is_nullable := pyLowerStr c.is_nullable == "yes" }

/-- The `DbColumn` built for one `DESCRIBE` row in the loop of
`MySqlDbConnection.get_columns` (lines 142-149):
`is_nullable` is `c["Null"].lower() == "yes"`. -/
def mysql_row_to_column (c : MySqlRow) : DbColumn :=
  { name := c.field
    datatype := _get_python_type c.type
    is_nullable := pyLowerStr c.null == "yes" }

/-- The `DbColumn` built for one catalog row in the loop of
`MSSqlDbConnection.get_columns` (lines 172-179):
`is_nullable` is `c["is_nullable"].lower() == "yes"`. -/
def mssql_row_to_column (c : MsRow) : DbColumn :=
  { name := c.column_name
    datatype := _get_python_type c.data_type
    is_nullable := pyLowerStr c.is_nullable == "yes" }

/-- `SqliteDbConnection.get_tables` (lines 86-112): raise
`DatabaseConnectionError` when the handle is absent or the status is
`DISCONNECTED`, else list the base-table names. -/
def sqlite_get_tables (conn : Option SqliteHandle) (db : SqliteDb) :
    Except DbError (List String) × List SqliteQuery :=
  if conn.isNone ∨ sqlite_get_connection_status conn = .DISCONNECTED then
    (.error (.DatabaseConnectionError
      "Connection to SQLite database was unexpectedly closed." .SQLITE), [])
  else
    (.ok (db.tables.map Prod.fst), [.master_tables])

/-- `SqliteDbConnection.get_columns` (lines 114-165): precondition check,
then an explicit existence probe against `sqlite_master` (raising
`DatabaseTableNotFoundError` when it reports 0), then the
`PRAGMA table_info` query. -/
def sqlite_get_columns (conn : Option SqliteHandle) (db : SqliteDb)
    (table_name : String) :
    Except DbError (List DbColumn) × List SqliteQuery :=
  if conn.isNone ∨ sqlite_get_connection_status conn = .DISCONNECTED then
    (.error (.DatabaseConnectionError
      "Connection to SQLite database was unexpectedly closed." .SQLITE), [])
  else
    match db.tables.lookup table_name with
    | none =>
      (.error (.DatabaseTableNotFoundError
        ("The specified table " ++ table_name ++ " does not exist.") .SQLITE),
        [.table_exists table_name])
    | some rows =>
      (.ok (rows.map sqlite_row_to_column),
        [.table_exists table_name, .table_info table_name])

/-- `PostgresDbConnection.get_tables` (lines 85-111). -/
def postgres_get_tables (conn : Option PgHandle) (db : PgDb) :
    Except DbError (List String) × List PgQuery :=
  if conn.isNone ∨ postgres_get_connection_status conn = .DISCONNECTED then
    (.error (.DatabaseConnectionError
      "Connection to PostgreSQL database was unexpectedly closed." .POSTGRES), [])
  else
    (.ok (db.tables.map Prod.fst), [.information_schema_tables])

/-- `PostgresDbConnection.get_columns` (lines 113-173): precondition check,
then `SELECT CURRENT_SCHEMA`, then a `to_regclass` existence probe (raising
`DatabaseTableNotFoundError` when it returns NULL), then the
`information_schema.columns` query. -/
def postgres_get_columns (conn : Option PgHandle) (db : PgDb)
    (table_name : String) :
    Except DbError (List DbColumn) × List PgQuery :=
  if conn.isNone ∨ postgres_get_connection_status conn = .DISCONNECTED then
    (.error (.DatabaseConnectionError
      "Connection to PostgreSQL database was unexpectedly closed." .POSTGRES), [])
  else
    match db.tables.lookup table_name with
    | none =>
      (.error (.DatabaseTableNotFoundError
        ("The specified table " ++ table_name ++ " does not exist.") .POSTGRES),
        [.current_schema, .to_regclass db.current_schema table_name])
    | some rows =>
      (.ok (rows.map postgres_row_to_column),
        [.current_schema, .to_regclass db.current_schema table_name,
          .information_schema_columns db.current_schema table_name])

/-- `MySqlDbConnection.get_tables` (lines 88-112). -/
def mysql_get_tables (conn : Option MySqlHandle) (db : MySqlDb) :
    Except DbError (List String) × List MySqlQuery :=
  if conn.isNone ∨ mysql_get_connection_status conn = .DISCONNECTED then
    (.error (.DatabaseConnectionError
      "Connection to MySQL database was unexpectedly closed." .MYSQL), [])
  else
    (.ok (db.tables.map Prod.fst), [.show_tables])

/-- `MySqlDbConnection.get_columns` (lines 114-156): precondition check,
then `DESCRIBE <table>`; the native error MySQL raises for a missing table
is translated to `DatabaseTableNotFoundError`. -/
def mysql_get_columns (conn : Option MySqlHandle) (db : MySqlDb)
    (table_name : String) :
    Except DbError (List DbColumn) × List MySqlQuery :=
  if conn.isNone ∨ mysql_get_connection_status conn = .DISCONNECTED then
    (.error (.DatabaseConnectionError
      "Connection to MySQL database was unexpectedly closed." .MYSQL), [])
  else
    match db.tables.lookup table_name with
    | none =>
      (.error (.DatabaseTableNotFoundError
        ("The specified table " ++ table_name ++ " does not exist.") .MYSQL),
        [.describe table_name])
    | some rows =>
      (.ok (rows.map mysql_row_to_column), [.describe table_name])

/-- `MSSqlDbConnection.get_tables` (lines 106-136); the query is qualified
with the configured database name from the connection parameters. -/
def mssql_get_tables (conn : Option MsHandle) (db : MsDb) (database : String) :
    Except DbError (List String) × List MsQuery :=
  if conn.isNone ∨ mssql_get_connection_status conn = .DISCONNECTED then
    (.error (.DatabaseConnectionError
      "Connection to SQL Server database was unexpectedly closed." .MSSQL), [])
  else
    (.ok (db.tables.map Prod.fst), [.information_schema_tables database])

/-- `MSSqlDbConnection.get_columns` (lines 138-181): precondition check,
then directly the `information_schema.columns` query filtered by table
name.  There is NO existence probe: for an absent table the filter matches
no rows and the loop produces the empty column list. -/
def mssql_get_columns (conn : Option MsHandle) (db : MsDb)
    (table_name : String) :
    Except DbError (List DbColumn) × List MsQuery :=
  if conn.isNone ∨ mssql_get_connection_status conn = .DISCONNECTED then
    (.error (.DatabaseConnectionError
      "Connection to SQL Server database was unexpectedly closed." .MSSQL), [])
  else
    ((.ok (((db.tables.lookup table_name).getD []).map mssql_row_to_column)),
      [.information_schema_columns table_name])

/-- `PostgresDbConnection.__init__`/`_connect` (lines 42-71): the
constructor connects eagerly; a driver rejection (modelled as
`Except.error` with the native error text) becomes
`DatabaseConnectionError(f"Connection to database failed: {error}")` and no
adapter state is produced; on success the state holds the handle. -/
def postgres_init (driver : Except String PgHandle) :
    Except DbError (Option PgHandle) :=
  match driver with
  | .ok h => .ok (some h)
  | .error e =>
    .error (.DatabaseConnectionError ("Connection to database failed: " ++ e) .POSTGRES)

/-- `MySqlDbConnection.__init__`/`_connect` (lines 46-74), as
`postgres_init`. -/
def mysql_init (driver : Except String MySqlHandle) :
    Except DbError (Option MySqlHandle) :=
  match driver with
  | .ok h => .ok (some h)
  | .error e =>
    .error (.DatabaseConnectionError ("Connection to database failed: " ++ e) .MYSQL)

/-- `MSSqlDbConnection.__init__`/`_connect` (lines 61-92), as written at
the raise site (the class name used there, `DbConnectionError`, does not
exist; see `errors_module_defs`). -/
def mssql_init (driver : Except String MsHandle) :
    Except DbError (Option MsHandle) :=
  match driver with
  | .ok h => .ok (some h)
  | .error e =>
    .error (.DatabaseConnectionError ("Connection to database failed: " ++ e) .MSSQL)

/-- The names bound at module level by infrastructure/errors.py. -/
def errors_module_defs : List String :=
  ["DatabaseError", "DatabaseConnectionError", "DatabaseTableNotFoundError"]

/-- The name mssql_db_connection.py line 37 imports from
infrastructure/errors.py. -/
def mssql_errors_import : String := "DbConnectionError"

/-- The names bound at module level by infrastructure/types.py. -/
def types_module_defs : List String :=
  ["SqliteConnParams", "MySQLConnectionTypes", "DbSchema"]

/-- The name mysql_db_connection.py line 40 imports from
infrastructure/types.py. -/
def mysql_types_import : String := "MySqlConnectionType"

/-! ## Schema extraction orchestrator (DbBase.extract_schema) -/

/-- One adapter method call observed while `extract_schema` runs: the
single `get_tables()` call or one `get_columns(table)` call. -/
inductive CallEvent where
  | tables
  | columns (table : String)
deriving DecidableEq, Repr

/-- Assignment `schema[table] = columns` on a Python dict modelled as an
association list: an existing key keeps its position and gets the new
value; a new key is appended. -/
def dictInsert (m : List (String × List DbColumn)) (k : String)
    (v : List DbColumn) : List (String × List DbColumn) :=
  if m.any (fun p => p.1 == k) then
    m.map (fun p => if p.1 == k then (k, v) else p)
  else
    m ++ [(k, v)]

/-- The `for table in tables` loop of `DbBase.extract_schema`
(db_base.py lines 154-156), with the `get_columns` method of the adapter
abstracted as a pure oracle and every call recorded. -/
def extract_schema_go (get_columns : String → Except DbError (List DbColumn)) :
    List String → List (String × List DbColumn) →
    Except DbError (List (String × List DbColumn)) × List CallEvent
  | [], schema => (.ok schema, [])
  | t :: ts, schema =>
    match get_columns t with
    | .error e => (.error e, [CallEvent.columns t])
    | .ok cols =>
      let r := extract_schema_go get_columns ts (dictInsert schema t cols)
      (r.1, CallEvent.columns t :: r.2)

/-- `DbBase.extract_schema` (db_base.py lines 143-158), polymorphic over
the adapter: `get_tables` and `get_columns` are the abstract methods of
the adapter, modelled as pure oracles.  The second component is the
sequence of adapter calls made, in order. -/
def extract_schema (get_tables : Except DbError (List String))
    (get_columns : String → Except DbError (List DbColumn)) :
    Except DbError (List (String × List DbColumn)) × List CallEvent :=
  match get_tables with
  | .error e => (.error e, [CallEvent.tables])
  | .ok ts =>
    let r := extract_schema_go get_columns ts []
    (r.1, CallEvent.tables :: r.2)

/-- `extract_schema` for each concrete adapter, instantiating the oracles
with the adapter operations on a fixed connection state and catalog. -/
def sqlite_extract_schema (conn : Option SqliteHandle) (db : SqliteDb) :
    Except DbError (List (String × List DbColumn)) × List CallEvent :=
  extract_schema (sqlite_get_tables conn db).1
    (fun t => (sqlite_get_columns conn db t).1)

def postgres_extract_schema (conn : Option PgHandle) (db : PgDb) :
    Except DbError (List (String × List DbColumn)) × List CallEvent :=
  extract_schema (postgres_get_tables conn db).1
    (fun t => (postgres_get_columns conn db t).1)

/-! ## Helper lemmas and sample catalogs -/

/-- A populated SQLite catalog with one base table, for concrete runs. -/
def sample_sqlite_db : SqliteDb :=
  ⟨[("test_table", [{ name := "id", type := "INTEGER", notnull := 1 }])]⟩

/-- A populated PostgreSQL catalog with one base table. -/
def sample_pg_db : PgDb :=
  ⟨"public",
    [("test_table", [{ column_name := "id", data_type := "integer", is_nullable := "NO" }])]⟩

/-- A populated MySQL catalog with one base table. -/
def sample_mysql_db : MySqlDb :=
  ⟨[("test_table", [{ field := "id", type := "int(11)", null := "NO" }])]⟩

/-- A populated SQL Server catalog with one base table. -/
def sample_ms_db : MsDb :=
  ⟨[("test_table", [{ column_name := "id", data_type := "int", is_nullable := "NO" }])]⟩

/-! ## Theorems -/

theorem stripParensFuel_nil (fuel : Nat) : stripParensFuel fuel [] = [] := by
  cases fuel <;> rfl

theorem lastIdxRParen_append_last (ps : List Char) (h2 : ')' ∉ ps) (h3 : '\n' ∉ ps) :
    lastIdxRParen (ps ++ [')']) = some ps.length := by
  induction ps with
  | nil => simp [lastIdxRParen]
  | cons d ds ih =>
    simp only [List.mem_cons, not_or] at h2 h3
    simp only [List.cons_append, lastIdxRParen, List.append_eq]
    rw [if_neg (Ne.symm h3.1), ih h2.2 h3.2]
    simp

theorem stripParensFuel_no_lparen :
    ∀ (fuel : Nat) (cs : List Char), cs.length ≤ fuel → '(' ∉ cs →
      stripParensFuel fuel cs = cs := by
  intro fuel
  induction fuel with
  | zero =>
    intro cs hlen _
    cases cs with
    | nil => rfl
    | cons c cs' => simp at hlen
  | succ n ih =>
    intro cs hlen hmem
    cases cs with
    | nil => rfl
    | cons c cs' =>
      simp only [List.mem_cons, not_or] at hmem
      simp only [stripParensFuel]
      rw [if_neg (Ne.symm hmem.1), ih cs' (by simp at hlen; omega) hmem.2]

/-- On input `cs ++ "(" ++ ps ++ ")"` where `cs` has no opening parenthesis
and `ps` contains no parenthesis and no newline, the greedy
`re.sub(r"\(.*\)", "", -)` deletes exactly the parenthesized suffix. -/
theorem stripParensFuel_param :
    ∀ (fuel : Nat) (cs ps : List Char),
      cs.length + ps.length + 2 ≤ fuel → '(' ∉ cs → '(' ∉ ps → ')' ∉ ps → '\n' ∉ ps →
      stripParensFuel fuel (cs ++ '(' :: (ps ++ [')'])) = cs := by
  intro fuel
  induction fuel with
  | zero => intro cs ps hlen _ _ _ _; omega
  | succ n ih =>
    intro cs ps hlen h1 h2 h3 h4
    cases cs with
    | nil =>
      simp only [List.nil_append, stripParensFuel, List.append_eq]
      rw [if_pos trivial, lastIdxRParen_append_last ps h3 h4]
      show stripParensFuel n ((ps ++ [')']).drop (ps.length + 1)) = []
      have hdrop : (ps ++ [')']).drop (ps.length + 1) = [] := by
        have hl : (ps ++ [')']).length = ps.length + 1 := by simp
        rw [← hl, List.drop_length]
      rw [hdrop, stripParensFuel_nil]
    | cons c cs' =>
      simp only [List.mem_cons, not_or] at h1
      simp only [List.cons_append, stripParensFuel, List.append_eq]
      rw [if_neg (Ne.symm h1.1),
        ih cs' ps (by simp at hlen ⊢; omega) h1.2 h2 h3 h4]

theorem stripParens_no_lparen (cs : List Char) (h : '(' ∉ cs) :
    stripParens cs = cs :=
  stripParensFuel_no_lparen cs.length cs (Nat.le_refl _) h

theorem stripParens_param (cs ps : List Char)
    (h1 : '(' ∉ cs) (h2 : '(' ∉ ps) (h3 : ')' ∉ ps) (h4 : '\n' ∉ ps) :
    stripParens (cs ++ '(' :: (ps ++ [')'])) = cs := by
  apply stripParensFuel_param
  · simp [stripParens]; omega
  all_goals assumption

theorem normalized_key_paren (s p : String)
    (hs : '(' ∉ s.data) (h1 : '(' ∉ p.data) (h2 : ')' ∉ p.data) (h3 : '\n' ∉ p.data) :
    normalized_key (s ++ "(" ++ p ++ ")") = normalized_key s := by
  have hdata : (s ++ "(" ++ p ++ ")").data = s.data ++ '(' :: (p.data ++ [')']) := by
    simp [String.data_append]
  unfold normalized_key
  rw [hdata, stripParens_param s.data p.data hs h1 h2 h3, stripParens_no_lparen s.data hs]

/-- Appending a parenthesized parameter suffix to a spelling without an
opening parenthesis does not change the result of the type lookup. -/
theorem get_python_type_paren (s p : String)
    (hs : '(' ∉ s.data) (h1 : '(' ∉ p.data) (h2 : ')' ∉ p.data) (h3 : '\n' ∉ p.data) :
    _get_python_type (s ++ "(" ++ p ++ ")") = _get_python_type s := by
  unfold _get_python_type
  rw [normalized_key_paren s p hs h1 h2 h3]

theorem lookup_eq_none_iff (l : List (String × PyType)) (k : String) :
    l.lookup k = none ↔ k ∉ l.map Prod.fst := by
  induction l with
  | nil => simp [List.lookup]
  | cons p t ih =>
    obtain ⟨a, b⟩ := p
    by_cases h : k = a
    · subst h; simp [List.lookup]
    · have hb : (k == a) = false := beq_false_of_ne h
      simp [List.lookup, hb, h, ih]

/-- C3: for every native type spelling registered in `python_type_map` under
a Python type `T`, normalization (strip a parenthesized suffix, strip
`UNSIGNED`/`ZEROFILL` qualifiers case-insensitively, uppercase) followed by
the reverse lookup yields `T`; and for every parameterized form of the
spelling (the spelling followed by a parenthesized parameter list, such as
`VARCHAR(255)`), the lookup yields the same `T` as the bare spelling. -/
theorem python_type_map_normalization :
    ∀ s T, (s, T) ∈ db_type_to_python_type →
      _get_python_type s = some T ∧
      ∀ p : String, '(' ∉ p.data → ')' ∉ p.data → '\n' ∉ p.data →
        _get_python_type (s ++ "(" ++ p ++ ")") = some T := by
  have hall : ∀ x ∈ db_type_to_python_type, _get_python_type x.1 = some x.2 := by decide
  have hparen : ∀ x ∈ db_type_to_python_type, '(' ∉ x.1.data := by decide
  intro s T hmem
  refine ⟨hall (s, T) hmem, fun p h1 h2 h3 => ?_⟩
  rw [get_python_type_paren s p (hparen (s, T) hmem) h1 h2 h3]
  exact hall (s, T) hmem

/-- Witness for C3 at the registered spelling `VARCHAR` and the
parameterized form `VARCHAR(255)`. -/
theorem python_type_map_normalization_witness :
    ("VARCHAR", PyType.str) ∈ db_type_to_python_type ∧
    _get_python_type ("VARCHAR" ++ "(" ++ "255" ++ ")") = some PyType.str :=
  ⟨by decide,
    (python_type_map_normalization "VARCHAR" PyType.str (by decide)).2 "255"
      (by decide) (by decide) (by decide)⟩

theorem dictInsert_fresh (m : List (String × List DbColumn)) (k : String)
    (v : List DbColumn) (h : ∀ p ∈ m, p.1 ≠ k) :
    dictInsert m k v = m ++ [(k, v)] := by
  unfold dictInsert
  rw [if_neg]
  simp only [List.any_eq_true, not_exists, not_and]
  intro p hp
  exact fun hb => h p hp (by simpa using hb)

theorem extract_schema_go_all_ok
    (get_columns : String → Except DbError (List DbColumn))
    (f : String → List DbColumn) :
    ∀ (ts : List String) (schema : List (String × List DbColumn)),
      ts.Nodup →
      (∀ t ∈ ts, get_columns t = .ok (f t)) →
      (∀ t ∈ ts, ∀ p ∈ schema, p.1 ≠ t) →
      extract_schema_go get_columns ts schema =
        (.ok (schema ++ ts.map (fun t => (t, f t))), ts.map CallEvent.columns) := by
  intro ts
  induction ts with
  | nil => intro schema _ _ _; simp [extract_schema_go]
  | cons t ts ih =>
    intro schema hnd hok hfresh
    have hokt : get_columns t = .ok (f t) := hok t (List.mem_cons_self t ts)
    simp only [extract_schema_go, hokt]
    rw [dictInsert_fresh schema t (f t)
      (fun p hp => hfresh t (List.mem_cons_self t ts) p hp)]
    rw [ih (schema ++ [(t, f t)]) (List.Nodup.of_cons hnd)
      (fun u hu => hok u (List.mem_cons_of_mem t hu))
      (fun u hu p hp => by
        rcases List.mem_append.mp hp with hms | hsing
        · exact hfresh u (List.mem_cons_of_mem t hu) p hms
        · have hpt : p = (t, f t) := by simpa using hsing
          have : t ≠ u := fun h => (List.nodup_cons.mp hnd).1 (h ▸ hu)
          simpa [hpt] using this)]
    simp

theorem extract_schema_go_first_error
    (get_columns : String → Except DbError (List DbColumn))
    (f : String → List DbColumn) (t : String) (e : DbError) :
    ∀ (ts1 ts2 : List String) (schema : List (String × List DbColumn)),
      (∀ u ∈ ts1, get_columns u = .ok (f u)) →
      get_columns t = .error e →
      extract_schema_go get_columns (ts1 ++ t :: ts2) schema =
        (.error e, ts1.map CallEvent.columns ++ [CallEvent.columns t]) := by
  intro ts1
  induction ts1 with
  | nil =>
    intro ts2 schema _ herr
    simp [extract_schema_go, herr]
  | cons u ts1 ih =>
    intro ts2 schema hok herr
    have hoku : get_columns u = .ok (f u) := hok u (List.mem_cons_self u ts1)
    simp only [List.cons_append, extract_schema_go, hoku, List.append_eq]
    rw [ih ts2 (dictInsert schema u (f u))
      (fun v hv => hok v (List.mem_cons_of_mem u hv)) herr]
    simp

theorem extract_schema_go_trace
    (get_columns : String → Except DbError (List DbColumn)) :
    ∀ (ts : List String) (schema : List (String × List DbColumn)),
      (∀ t ∈ ts, ∃ cols, get_columns t = .ok cols) →
      (extract_schema_go get_columns ts schema).2 = ts.map CallEvent.columns := by
  intro ts
  induction ts with
  | nil => intro schema _; rfl
  | cons t ts ih =>
    intro schema hok
    obtain ⟨c, hc⟩ := hok t (List.mem_cons_self t ts)
    simp only [extract_schema_go, hc, List.map_cons]
    rw [ih (dictInsert schema t c) (fun u hu => hok u (List.mem_cons_of_mem t hu))]

/-- C1: `extract_schema` calls `get_tables` exactly once; when it returns
table names `ts` (all distinct) and every `get_columns` call succeeds, it
then calls `get_columns` once per returned table, in the order the tables
were returned, and produces exactly the mapping `t ↦ get_columns t` with
keys in that same order; when `get_tables` returns the empty list the
result is the empty schema and no `get_columns` call is made; an error of
`get_tables`, or of the first failing `get_columns`, propagates unchanged
with no retry and no further calls. -/
theorem extract_schema_contract :
    (∀ (e : DbError) (gc : String → Except DbError (List DbColumn)),
      extract_schema (.error e) gc = (.error e, [CallEvent.tables])) ∧
    (∀ gc : String → Except DbError (List DbColumn),
      extract_schema (.ok []) gc = (.ok [], [CallEvent.tables])) ∧
    (∀ (ts : List String) (gc : String → Except DbError (List DbColumn))
        (f : String → List DbColumn),
      ts.Nodup →
      (∀ t ∈ ts, gc t = .ok (f t)) →
      extract_schema (.ok ts) gc =
        (.ok (ts.map (fun t => (t, f t))),
          CallEvent.tables :: ts.map CallEvent.columns)) ∧
    (∀ (ts1 ts2 : List String) (t : String)
        (gc : String → Except DbError (List DbColumn))
        (f : String → List DbColumn) (e : DbError),
      (∀ u ∈ ts1, gc u = .ok (f u)) →
      gc t = .error e →
      extract_schema (.ok (ts1 ++ t :: ts2)) gc =
        (.error e,
          CallEvent.tables :: (ts1.map CallEvent.columns ++ [CallEvent.columns t]))) ∧
    (∀ (ts : List String) (gc : String → Except DbError (List DbColumn)),
      (∀ t ∈ ts, ∃ cols, gc t = .ok cols) →
      (extract_schema (.ok ts) gc).2 =
        CallEvent.tables :: ts.map CallEvent.columns) := by
  refine ⟨fun e gc => rfl, fun gc => rfl, ?_, ?_, ?_⟩
  · intro ts gc f hnd hok
    simp only [extract_schema]
    rw [extract_schema_go_all_ok gc f ts [] hnd hok (by simp)]
    simp
  · intro ts1 ts2 t gc f e hok herr
    simp only [extract_schema]
    rw [extract_schema_go_first_error gc f t e ts1 ts2 [] hok herr]
  · intro ts gc hok
    simp only [extract_schema]
    rw [extract_schema_go_trace gc ts [] hok]

/-- Witness for C1: a two-table catalog where both `get_columns` calls
succeed, and a run where the second table raises. -/
theorem extract_schema_contract_witness :
    extract_schema (.ok ["test_table", "test_table_2"]) (fun _ => .ok []) =
      (.ok [("test_table", []), ("test_table_2", [])],
        [CallEvent.tables, CallEvent.columns "test_table",
          CallEvent.columns "test_table_2"]) ∧
    extract_schema (.ok ["test_table", "test_table_2"])
        (fun t => if t = "test_table_2" then
            .error (.DatabaseTableNotFoundError "boom" .SQLITE)
          else .ok []) =
      (.error (.DatabaseTableNotFoundError "boom" .SQLITE),
        [CallEvent.tables, CallEvent.columns "test_table",
          CallEvent.columns "test_table_2"]) := by
  constructor
  · exact extract_schema_contract.2.2.1 ["test_table", "test_table_2"]
      (fun _ => .ok []) (fun _ => []) (by decide) (fun t _ => rfl)
  · exact extract_schema_contract.2.2.2.1 ["test_table"] [] "test_table_2"
      (fun t => if t = "test_table_2" then
          .error (.DatabaseTableNotFoundError "boom" .SQLITE)
        else .ok [])
      (fun _ => []) (.DatabaseTableNotFoundError "boom" .SQLITE)
      (by intro u hu; simp at hu; subst hu; rfl) (by rfl)

theorem sqlite_get_columns_found (h : SqliteHandle) (db : SqliteDb)
    (t : String) (rows : List SqliteRow)
    (hcl : h.closed = false) (hl : db.tables.lookup t = some rows) :
    sqlite_get_columns (some h) db t =
      (.ok (rows.map sqlite_row_to_column), [.table_exists t, .table_info t]) := by
  simp [sqlite_get_columns, sqlite_get_connection_status, hcl, hl]

theorem postgres_get_columns_found (h : PgHandle) (db : PgDb)
    (t : String) (rows : List PgRow)
    (hcl : h.closed = false) (hl : db.tables.lookup t = some rows) :
    postgres_get_columns (some h) db t =
      (.ok (rows.map postgres_row_to_column),
        [.current_schema, .to_regclass db.current_schema t,
          .information_schema_columns db.current_schema t]) := by
  simp [postgres_get_columns, postgres_get_connection_status, hcl, hl]

theorem mysql_get_columns_found (h : MySqlHandle) (db : MySqlDb)
    (t : String) (rows : List MySqlRow)
    (hcl : h.is_connected = true) (hl : db.tables.lookup t = some rows) :
    mysql_get_columns (some h) db t =
      (.ok (rows.map mysql_row_to_column), [.describe t]) := by
  simp [mysql_get_columns, mysql_get_connection_status, hcl, hl]

theorem mssql_get_columns_found (h : MsHandle) (db : MsDb)
    (t : String) (rows : List MsRow)
    (hcl : h.closed = false) (hl : db.tables.lookup t = some rows) :
    mssql_get_columns (some h) db t =
      (.ok (rows.map mssql_row_to_column), [.information_schema_columns t]) := by
  simp [mssql_get_columns, mssql_get_connection_status, hcl, hl]

theorem pyLowerStr_eq_iff (s t : String) :
    pyLowerStr s = t ↔ s.data.map Char.toLower = t.data := by
  constructor
  · intro h
    exact congrArg String.data h
  · intro h
    exact String.ext h

theorem startsWithStr_prefix_append (pre tail : String) :
    startsWithStr (pre ++ tail) pre = true := by
  unfold startsWithStr
  rw [String.data_append, List.isPrefixOf_iff_prefix]
  exact List.prefix_append _ _

/-! ## Claim theorems: error handling and adapters -/

/-- C2 (evaluation of the code at the failing input): on a populated
catalog that lacks `fake_table`, the SQL Server adapter returns the EMPTY
column list (`Except.ok []`) from `get_columns` — it issues no existence
probe — while the SQLite, PostgreSQL and MySQL adapters raise
`DatabaseTableNotFoundError` carrying the table name and engine identity. -/
theorem missing_table_mssql_returns_empty :
    mssql_get_columns (some { closed := false }) sample_ms_db "fake_table" =
      (.ok [], [.information_schema_columns "fake_table"]) ∧
    (sqlite_get_columns (some { closed := false }) sample_sqlite_db "fake_table").1 =
      .error (.DatabaseTableNotFoundError
        "The specified table fake_table does not exist." .SQLITE) ∧
    (postgres_get_columns (some { closed := false }) sample_pg_db "fake_table").1 =
      .error (.DatabaseTableNotFoundError
        "The specified table fake_table does not exist." .POSTGRES) ∧
    (mysql_get_columns (some { is_connected := true }) sample_mysql_db "fake_table").1 =
      .error (.DatabaseTableNotFoundError
        "The specified table fake_table does not exist." .MYSQL) :=
  ⟨rfl, rfl, rfl, rfl⟩

/-- C4: whenever the handle is absent or the engine status is
`DISCONNECTED`, `get_tables` and `get_columns` of every adapter return the
connection-lost `DatabaseConnectionError` carrying the engine identity and
issue NO catalog query; the final conjuncts record that these messages are
distinct from the connect-time failure prefix. -/
theorem disconnected_precondition :
    (∀ (conn : Option SqliteHandle) (db : SqliteDb) (t : String),
      conn = none ∨ sqlite_get_connection_status conn = .DISCONNECTED →
      sqlite_get_tables conn db =
        (.error (.DatabaseConnectionError
          "Connection to SQLite database was unexpectedly closed." .SQLITE), []) ∧
      sqlite_get_columns conn db t =
        (.error (.DatabaseConnectionError
          "Connection to SQLite database was unexpectedly closed." .SQLITE), [])) ∧
    (∀ (conn : Option PgHandle) (db : PgDb) (t : String),
      conn = none ∨ postgres_get_connection_status conn = .DISCONNECTED →
      postgres_get_tables conn db =
        (.error (.DatabaseConnectionError
          "Connection to PostgreSQL database was unexpectedly closed." .POSTGRES), []) ∧
      postgres_get_columns conn db t =
        (.error (.DatabaseConnectionError
          "Connection to PostgreSQL database was unexpectedly closed." .POSTGRES), [])) ∧
    (∀ (conn : Option MySqlHandle) (db : MySqlDb) (t : String),
      conn = none ∨ mysql_get_connection_status conn = .DISCONNECTED →
      mysql_get_tables conn db =
        (.error (.DatabaseConnectionError
          "Connection to MySQL database was unexpectedly closed." .MYSQL), []) ∧
      mysql_get_columns conn db t =
        (.error (.DatabaseConnectionError
          "Connection to MySQL database was unexpectedly closed." .MYSQL), [])) ∧
    (∀ (conn : Option MsHandle) (db : MsDb) (database t : String),
      conn = none ∨ mssql_get_connection_status conn = .DISCONNECTED →
      mssql_get_tables conn db database =
        (.error (.DatabaseConnectionError
          "Connection to SQL Server database was unexpectedly closed." .MSSQL), []) ∧
      mssql_get_columns conn db t =
        (.error (.DatabaseConnectionError
          "Connection to SQL Server database was unexpectedly closed." .MSSQL), [])) ∧
    (startsWithStr "Connection to SQLite database was unexpectedly closed."
        "Connection to database failed:" = false ∧
      startsWithStr "Connection to PostgreSQL database was unexpectedly closed."
        "Connection to database failed:" = false ∧
      startsWithStr "Connection to MySQL database was unexpectedly closed."
        "Connection to database failed:" = false ∧
      startsWithStr "Connection to SQL Server database was unexpectedly closed."
        "Connection to database failed:" = false) := by
  refine ⟨?_, ?_, ?_, ?_, by decide⟩
  · intro conn db t h
    rcases h with rfl | h
    · exact ⟨rfl, rfl⟩
    · constructor <;> simp [sqlite_get_tables, sqlite_get_columns, h]
  · intro conn db t h
    rcases h with rfl | h
    · exact ⟨rfl, rfl⟩
    · constructor <;> simp [postgres_get_tables, postgres_get_columns, h]
  · intro conn db t h
    rcases h with rfl | h
    · exact ⟨rfl, rfl⟩
    · constructor <;> simp [mysql_get_tables, mysql_get_columns, h]
  · intro conn db database t h
    rcases h with rfl | h
    · exact ⟨rfl, rfl⟩
    · constructor <;> simp [mssql_get_tables, mssql_get_columns, h]

/-- Witness for C4: an absent handle (SQLite) and a present-but-closed
handle (SQL Server). -/
theorem disconnected_precondition_witness :
    sqlite_get_tables none sample_sqlite_db =
      (.error (.DatabaseConnectionError
        "Connection to SQLite database was unexpectedly closed." .SQLITE), []) ∧
    mssql_get_columns (some { closed := true }) sample_ms_db "test_table" =
      (.error (.DatabaseConnectionError
        "Connection to SQL Server database was unexpectedly closed." .MSSQL), []) :=
  ⟨(disconnected_precondition.1 none sample_sqlite_db "test_table" (Or.inl rfl)).1,
    (disconnected_precondition.2.2.2.1 (some { closed := true }) sample_ms_db
      "db" "test_table" (Or.inr rfl)).2⟩

/-- C5 (evaluation of the modelled constructors): the eager constructors
of the PostgreSQL, MySQL and SQL Server adapters turn a driver rejection
into `DatabaseConnectionError` whose message starts with the
`Connection to database failed:` prefix and whose engine identity is the
attempted engine, and produce no adapter state; on driver success the
state holds the handle.  The final conjuncts record the import-name
mismatches that prevent the MySQL and SQL Server adapter modules from
loading at all (mssql_db_connection.py imports `DbConnectionError` from
errors.py, mysql_db_connection.py imports `MySqlConnectionType` from
types.py; neither name is defined there). -/
theorem eager_connect_failure :
    (∀ e : String,
      postgres_init (.error e) =
        .error (.DatabaseConnectionError ("Connection to database failed: " ++ e) .POSTGRES) ∧
      startsWithStr ("Connection to database failed: " ++ e)
        "Connection to database failed:" = true) ∧
    (∀ e : String,
      mysql_init (.error e) =
        .error (.DatabaseConnectionError ("Connection to database failed: " ++ e) .MYSQL) ∧
      startsWithStr ("Connection to database failed: " ++ e)
        "Connection to database failed:" = true) ∧
    (∀ e : String,
      mssql_init (.error e) =
        .error (.DatabaseConnectionError ("Connection to database failed: " ++ e) .MSSQL) ∧
      startsWithStr ("Connection to database failed: " ++ e)
        "Connection to database failed:" = true) ∧
    (∀ h, postgres_init (.ok h) = .ok (some h)) ∧
    (∀ h, mysql_init (.ok h) = .ok (some h)) ∧
    (∀ h, mssql_init (.ok h) = .ok (some h)) ∧
    mssql_errors_import ∉ errors_module_defs ∧
    mysql_types_import ∉ types_module_defs := by
  have hpre : ∀ e : String,
      startsWithStr ("Connection to database failed: " ++ e)
        "Connection to database failed:" = true := by
    intro e
    have hconst : ("Connection to database failed: " : String) =
        "Connection to database failed:" ++ " " := by decide
    have hsplit : ("Connection to database failed: " ++ e) =
        "Connection to database failed:" ++ (" " ++ e) := by
      rw [hconst, String.append_assoc]
    rw [hsplit]
    exact startsWithStr_prefix_append _ _
  exact ⟨fun e => ⟨rfl, hpre e⟩, fun e => ⟨rfl, hpre e⟩, fun e => ⟨rfl, hpre e⟩,
    fun h => rfl, fun h => rfl, fun h => rfl, by decide, by decide⟩

/-- C6 counterexample: for a state whose handle is present but whose
transport reports closed (a silently dropped connection), `close` does NOT
null the handle — the connection property is still non-`None` after
`close`, so status `DISCONNECTED` together with a `None` connection
property does not hold after every `close`. -/
theorem close_stale_handle_counterexample :
    connection_property (postgres_close (some { closed := true })) ≠ none ∧
    postgres_get_connection_status (some { closed := true }) = .DISCONNECTED := by
  decide

/-- C6 (amended): `close` is idempotent and is a no-op (no error) on an
already-closed instance; scoped exit invokes `close` unconditionally, even
when an error is in flight; after `close` of a state whose transport was
live (in particular after scoped exit of a live connection), the status
reports `DISCONNECTED` and the connection property is `None`.  When the
transport has dropped while the handle is still present, `close` leaves
the state unchanged (see `close_stale_handle_counterexample`). -/
theorem close_lifecycle :
    (∀ {H : Type} (st : Option H → ConnectionStatus) (conn : Option H),
      DbBase_close st (DbBase_close st conn) = DbBase_close st conn) ∧
    (∀ {H : Type} (st : Option H → ConnectionStatus),
      DbBase_close st (none : Option H) = none) ∧
    (∀ {H : Type} (st : Option H → ConnectionStatus) (exc : Option String)
        (conn : Option H),
      DbBase_exit st exc conn = DbBase_close st conn) ∧
    (∀ h : SqliteHandle, h.closed = false →
      sqlite_close (some h) = none ∧
      sqlite_get_connection_status (sqlite_close (some h)) = .DISCONNECTED ∧
      connection_property (sqlite_close (some h)) = none) ∧
    (∀ h : PgHandle, h.closed = false →
      postgres_close (some h) = none ∧
      postgres_get_connection_status (postgres_close (some h)) = .DISCONNECTED ∧
      connection_property (postgres_close (some h)) = none) ∧
    (∀ h : MySqlHandle, h.is_connected = true →
      mysql_close (some h) = none ∧
      mysql_get_connection_status (mysql_close (some h)) = .DISCONNECTED ∧
      connection_property (mysql_close (some h)) = none) ∧
    (∀ h : MsHandle, h.closed = false →
      mssql_close (some h) = none ∧
      mssql_get_connection_status (mssql_close (some h)) = .DISCONNECTED ∧
      connection_property (mssql_close (some h)) = none) ∧
    (∀ {H : Type} (st : Option H → ConnectionStatus) (conn : Option H),
      st conn ≠ .CONNECTED → DbBase_close st conn = conn) := by
  refine ⟨?_, ?_, ?_, ?_, ?_, ?_, ?_, ?_⟩
  · intro H st conn
    by_cases hc : conn.isSome ∧ st conn = .CONNECTED
    · simp [DbBase_close, hc]
    · simp [DbBase_close, hc]
  · intro H st
    simp [DbBase_close]
  · intro H st exc conn
    rfl
  · intro h hcl
    refine ⟨?_, ?_, ?_⟩
    all_goals
      simp [sqlite_close, DbBase_close, sqlite_get_connection_status,
        connection_property, hcl]
  · intro h hcl
    refine ⟨?_, ?_, ?_⟩
    all_goals
      simp [postgres_close, DbBase_close, postgres_get_connection_status,
        connection_property, hcl]
  · intro h hcl
    refine ⟨?_, ?_, ?_⟩
    all_goals
      simp [mysql_close, DbBase_close, mysql_get_connection_status,
        connection_property, hcl]
  · intro h hcl
    refine ⟨?_, ?_, ?_⟩
    all_goals
      simp [mssql_close, DbBase_close, mssql_get_connection_status,
        connection_property, hcl]
  · intro H st conn hne
    exact if_neg (fun hc => hne hc.2)

/-- Witness for C6: closing a live PostgreSQL state nulls the handle and
reports `DISCONNECTED`. -/
theorem close_lifecycle_witness :
    postgres_close (some { closed := false }) = none ∧
    postgres_get_connection_status (postgres_close (some { closed := false })) =
      .DISCONNECTED ∧
    connection_property (postgres_close (some { closed := false })) = none :=
  close_lifecycle.2.2.2.2.1 { closed := false } rfl

/-- C7: for every adapter, the status is `CONNECTED` exactly when the
handle is present and the transport is live, and `DISCONNECTED` exactly
when the handle is absent or the transport reports closed. -/
theorem connection_status_reflects_liveness :
    (∀ conn : Option SqliteHandle,
      (sqlite_get_connection_status conn = .CONNECTED ↔
        ∃ h, conn = some h ∧ h.closed = false) ∧
      (sqlite_get_connection_status conn = .DISCONNECTED ↔
        (conn = none ∨ ∃ h, conn = some h ∧ h.closed = true))) ∧
    (∀ conn : Option PgHandle,
      (postgres_get_connection_status conn = .CONNECTED ↔
        ∃ h, conn = some h ∧ h.closed = false) ∧
      (postgres_get_connection_status conn = .DISCONNECTED ↔
        (conn = none ∨ ∃ h, conn = some h ∧ h.closed = true))) ∧
    (∀ conn : Option MySqlHandle,
      (mysql_get_connection_status conn = .CONNECTED ↔
        ∃ h, conn = some h ∧ h.is_connected = true) ∧
      (mysql_get_connection_status conn = .DISCONNECTED ↔
        (conn = none ∨ ∃ h, conn = some h ∧ h.is_connected = false))) ∧
    (∀ conn : Option MsHandle,
      (mssql_get_connection_status conn = .CONNECTED ↔
        ∃ h, conn = some h ∧ h.closed = false) ∧
      (mssql_get_connection_status conn = .DISCONNECTED ↔
        (conn = none ∨ ∃ h, conn = some h ∧ h.closed = true))) := by
  refine ⟨?_, ?_, ?_, ?_⟩ <;> intro conn
  · rcases conn with _ | ⟨b⟩
    · simp [sqlite_get_connection_status]
    · cases b
      all_goals simp [sqlite_get_connection_status]
  · rcases conn with _ | ⟨b⟩
    · simp [postgres_get_connection_status]
    · cases b
      all_goals simp [postgres_get_connection_status]
  · rcases conn with _ | ⟨b⟩
    · simp [mysql_get_connection_status]
    · cases b
      all_goals simp [mysql_get_connection_status]
  · rcases conn with _ | ⟨b⟩
    · simp [mssql_get_connection_status]
    · cases b
      all_goals simp [mssql_get_connection_status]

/-- C8: the native-type lookup is total with `None` exactly on a
normalization miss — never an error — and `get_columns` (SQLite shown; the
decode is the same map in every adapter) succeeds on a present table
whatever the native type spellings of its rows are, producing a `None`
datatype for each unrecognized spelling. -/
theorem unknown_type_not_error :
    (∀ s : String, _get_python_type s = none ↔
      (∀ p ∈ db_type_to_python_type, p.1 ≠ normalized_key s)) ∧
    (∀ (h : SqliteHandle) (db : SqliteDb) (t : String) (rows : List SqliteRow),
      h.closed = false → db.tables.lookup t = some rows →
      ∃ cols, (sqlite_get_columns (some h) db t).1 = .ok cols) ∧
    (∀ c : SqliteRow,
      (∀ p ∈ db_type_to_python_type, p.1 ≠ normalized_key c.type) →
      (sqlite_row_to_column c).datatype = none) := by
  refine ⟨?_, ?_, ?_⟩
  · intro s
    unfold _get_python_type
    rw [lookup_eq_none_iff]
    constructor
    · intro hnot p hp hpk
      exact hnot (hpk ▸ List.mem_map_of_mem Prod.fst hp)
    · intro hall hm
      obtain ⟨p, hp, hpk⟩ := List.mem_map.mp hm
      exact hall p hp hpk
  · intro h db t rows hcl hl
    exact ⟨rows.map sqlite_row_to_column,
      congrArg Prod.fst (sqlite_get_columns_found h db t rows hcl hl)⟩
  · intro c hmiss
    show _get_python_type c.type = none
    unfold _get_python_type
    rw [lookup_eq_none_iff]
    intro hm
    obtain ⟨p, hp, hpk⟩ := List.mem_map.mp hm
    exact hmiss p hp hpk

/-- Witness for C8: a connected SQLite state whose single table has one
column of the unregistered type `FROBNICATOR`; `get_columns` succeeds and
the column datatype is `None`. -/
theorem unknown_type_not_error_witness :
    _get_python_type "FROBNICATOR" = none ∧
    (∃ cols, (sqlite_get_columns (some { closed := false })
        ⟨[("t", [{ name := "c", type := "FROBNICATOR", notnull := 0 }])]⟩ "t").1 =
      .ok cols) ∧
    (sqlite_row_to_column
        { name := "c", type := "FROBNICATOR", notnull := 0 }).datatype = none :=
  ⟨(unknown_type_not_error.1 "FROBNICATOR").mpr (by decide),
    unknown_type_not_error.2.1 { closed := false }
      ⟨[("t", [{ name := "c", type := "FROBNICATOR", notnull := 0 }])]⟩ "t"
      [{ name := "c", type := "FROBNICATOR", notnull := 0 }] rfl rfl,
    unknown_type_not_error.2.2 { name := "c", type := "FROBNICATOR", notnull := 0 }
      (by decide)⟩

/-- C9: per engine, the nullability decode of one catalog row — SQLite
maps the inverted not-null integer flag (`notnull == 0`), while
PostgreSQL, MySQL and SQL Server map case-insensitive equality of the
catalog nullability string with `YES` — and, for a present table on a
connected adapter, `get_columns` returns exactly the row-wise decode of
the catalog rows (`List.map`), preserving the catalog row order. -/
theorem nullability_decoding :
    (∀ c : SqliteRow,
      (sqlite_row_to_column c).is_nullable = true ↔ c.notnull = 0) ∧
    (∀ c : PgRow,
      (postgres_row_to_column c).is_nullable = true ↔
        c.is_nullable.data.map Char.toLower = "yes".data) ∧
    (∀ c : MySqlRow,
      (mysql_row_to_column c).is_nullable = true ↔
        c.null.data.map Char.toLower = "yes".data) ∧
    (∀ c : MsRow,
      (mssql_row_to_column c).is_nullable = true ↔
        c.is_nullable.data.map Char.toLower = "yes".data) ∧
    (∀ (h : SqliteHandle) (db : SqliteDb) (t : String) (rows : List SqliteRow),
      h.closed = false → db.tables.lookup t = some rows →
      (sqlite_get_columns (some h) db t).1 = .ok (rows.map sqlite_row_to_column)) ∧
    (∀ (h : PgHandle) (db : PgDb) (t : String) (rows : List PgRow),
      h.closed = false → db.tables.lookup t = some rows →
      (postgres_get_columns (some h) db t).1 = .ok (rows.map postgres_row_to_column)) ∧
    (∀ (h : MySqlHandle) (db : MySqlDb) (t : String) (rows : List MySqlRow),
      h.is_connected = true → db.tables.lookup t = some rows →
      (mysql_get_columns (some h) db t).1 = .ok (rows.map mysql_row_to_column)) ∧
    (∀ (h : MsHandle) (db : MsDb) (t : String) (rows : List MsRow),
      h.closed = false → db.tables.lookup t = some rows →
      (mssql_get_columns (some h) db t).1 = .ok (rows.map mssql_row_to_column)) := by
  refine ⟨?_, ?_, ?_, ?_, ?_, ?_, ?_, ?_⟩
  · intro c
    simp [sqlite_row_to_column]
  · intro c
    simp only [postgres_row_to_column, beq_iff_eq]
    exact pyLowerStr_eq_iff c.is_nullable "yes"
  · intro c
    simp only [mysql_row_to_column, beq_iff_eq]
    exact pyLowerStr_eq_iff c.null "yes"
  · intro c
    simp only [mssql_row_to_column, beq_iff_eq]
    exact pyLowerStr_eq_iff c.is_nullable "yes"
  · intro h db t rows hcl hl
    exact congrArg Prod.fst (sqlite_get_columns_found h db t rows hcl hl)
  · intro h db t rows hcl hl
    exact congrArg Prod.fst (postgres_get_columns_found h db t rows hcl hl)
  · intro h db t rows hcl hl
    exact congrArg Prod.fst (mysql_get_columns_found h db t rows hcl hl)
  · intro h db t rows hcl hl
    exact congrArg Prod.fst (mssql_get_columns_found h db t rows hcl hl)

/-- Witness for C9: decoding the sample PostgreSQL catalog, whose single
column reports `NO`, yields `is_nullable = false` and the mapped integer
type. -/
theorem nullability_decoding_witness :
    (postgres_get_columns (some { closed := false }) sample_pg_db "test_table").1 =
      .ok [{ name := "id", datatype := some PyType.int, is_nullable := false }] := by
  have h := nullability_decoding.2.2.2.2.2.1 { closed := false } sample_pg_db
    "test_table" [{ column_name := "id", data_type := "integer", is_nullable := "NO" }]
    rfl rfl
  exact h.trans rfl

/-- C10: `DbBase.close` nulls the handle only from a `CONNECTED` state;
when the transport silently dropped while the handle is still present
(status `DISCONNECTED`, `_connection` not `None`, PostgreSQL adapter
shown), `close` — and therefore scoped exit — returns without releasing
anything and the connection property stays non-`None`. -/
theorem close_only_when_connected :
    (∀ conn : Option PgHandle,
      postgres_close conn = none →
      conn = none ∨ postgres_get_connection_status conn = .CONNECTED) ∧
    (∀ h : PgHandle, h.closed = true →
      postgres_close (some h) = some h ∧
      (∀ exc : Option String, postgres_exit exc (some h) = some h) ∧
      connection_property (postgres_close (some h)) ≠ none ∧
      postgres_get_connection_status (some h) = .DISCONNECTED) := by
  constructor
  · intro conn hc
    by_cases hcond : conn.isSome ∧ postgres_get_connection_status conn = .CONNECTED
    · exact Or.inr hcond.2
    · rw [postgres_close, DbBase_close, if_neg hcond] at hc
      exact Or.inl hc
  · intro h hcl
    refine ⟨?_, ?_, ?_, ?_⟩
    all_goals
      simp [postgres_close, postgres_exit, DbBase_exit, DbBase_close,
        postgres_get_connection_status, connection_property, hcl]

/-- Witness for C10: the dropped-transport PostgreSQL state. -/
theorem close_only_when_connected_witness :
    postgres_close (some { closed := true }) = some { closed := true } ∧
    postgres_exit none (some { closed := true }) = some { closed := true } ∧
    connection_property (postgres_close (some { closed := true })) ≠ none := by
  have h := close_only_when_connected.2 { closed := true } rfl
  exact ⟨h.1, h.2.1 none, h.2.2.1⟩
